import Mathlib

/-!
Verification development for the retirement-planning projection engine:
deterministic growth-model price projection, dollar-cost-averaging
accumulation projection, Monte Carlo percentile extraction, drawdown
(decumulation) simulation, and inflation adjustment.

The numeric model: the engine computes with IEEE doubles; here the
arithmetic is embedded over the rationals wherever the computation is
purely field arithmetic, and over the reals where the source applies
transcendental functions (exp, sin, log). JavaScript rounding
(Math.round) is embedded as the floor of x + 1/2, which is its
documented behavior on exact values.

Randomness: the source draws unseeded standard-normal samples
(Box-Muller over the platform PRNG). Following the design notes of the
specification, the simulators are embedded with the random source
threaded explicitly: the drawdown simulator receives the realized
per-month geometric-Brownian-motion price multipliers (the source
computes each one as exp((monthlyDrift - monthlyVol^2 / 2) +
monthlyVol * Z) from a Gaussian draw Z, a positive real number) and the
monthly inflation rate (the source derives it from the annual rate by
the transcendental map (1 + r)^(1/12) - 1).
-/

namespace RetireOnSol

/-- Embedding of JavaScript Math.round: round half toward positive infinity. -/
def jsRound (x : ℚ) : ℤ := ⌊x + 1/2⌋

/-- Embedding of the source idiom Math.round(x * 100) / 100 (round to cents). -/
def round2 (x : ℚ) : ℚ := (jsRound (x * 100) : ℚ) / 100

/-! ### Growth models (growthModels.ts) -/

/-- CAGR decay selector, source type CAGRDecayType = "none" | "auto". -/
inductive CAGRDecayType where
  | none
  | auto
deriving DecidableEq, Repr

/-- Growth model parameter record (source interface GrowthModelParams).
Optional fields are embedded as Option; the power-law and S-curve fields are
carried for completeness (the power-law model reads the wall clock and is
not needed by any claim; the S-curve model is embedded over the reals
below). -/
structure GrowthModelParams where
  cagr : Option ℚ
  cagrDecay : Option CAGRDecayType
  powerLawSlope : Option ℚ
  sCurveYearsToHalfRemaining : Option ℚ
  sCurveMaxPrice : Option ℚ
deriving DecidableEq

/-- Source constant CAGR_FLOOR = 0.03 (minimum growth rate). -/
def CAGR_FLOOR : ℚ := 3/100

/-- Source getAutoDecayRate: scan AUTO_DECAY_SCHEDULE from the last entry
down, returning the decay rate of the first block whose startYear the given
year has reached; the fallback (year below every startYear) is the first
entry of the schedule, 6 percent. -/
def getAutoDecayRate (year : ℕ) : ℚ :=
  if 26 ≤ year then 1/100
  else if 21 ≤ year then 3/200
  else if 16 ≤ year then 1/50
  else if 11 ≤ year then 3/100
  else if 6 ≤ year then 1/20
  else 3/50

/-- State of the currentCAGR variable of the auto-decay loop in cagrPrice
after n completed loop iterations: each year y the rate is multiplied by
(1 - getAutoDecayRate y) and clamped from below at CAGR_FLOOR. The rate
applied during year y of the loop is cagrRate cagr (y - 1). -/
def cagrRate (cagr : ℚ) : ℕ → ℚ
  | 0 => cagr
  | n + 1 => max CAGR_FLOOR (cagrRate cagr n * (1 - getAutoDecayRate (n + 1)))

/-- State of the price variable of the auto-decay loop in cagrPrice after n
completed loop iterations: year y multiplies the price by
(1 + currentCAGR), where currentCAGR is the rate state after y - 1 years. -/
def cagrAutoPrice (currentPrice cagr : ℚ) : ℕ → ℚ
  | 0 => currentPrice
  | n + 1 => cagrAutoPrice currentPrice cagr n * (1 + cagrRate cagr n)

/-- Source cagrPrice: constant compounding for decay "none", otherwise the
year-by-year auto-decay loop. The year count is a natural number: every
call site in the projection code passes integer loop indices. -/
def cagrPrice (currentPrice : ℚ) (yearsFromNow : ℕ) (cagr : ℚ)
    (decayType : CAGRDecayType) : ℚ :=
  match decayType with
  | CAGRDecayType.none => currentPrice * (1 + cagr) ^ yearsFromNow
  | CAGRDecayType.auto => cagrAutoPrice currentPrice cagr yearsFromNow

/-- Embedding of the JavaScript default idiom (x || d) for a numeric option:
an absent value and the (falsy) value 0 both fall back to the default. -/
def jsOrQ (x : Option ℚ) (d : ℚ) : ℚ :=
  match x with
  | Option.none => d
  | Option.some v => if v = 0 then d else v

/-- The cagr arm of source calculateFuturePrice: cagrPrice with the
defaults params.cagr || 0.25 and params.cagrDecay || "none" applied. A
non-empty string is truthy, so the decay default only fills an absent
field. -/
def calculateFuturePriceCagr (currentPrice : ℚ) (yearsFromNow : ℕ)
    (params : GrowthModelParams) : ℚ :=
  cagrPrice currentPrice yearsFromNow (jsOrQ params.cagr (1/4))
    (params.cagrDecay.getD CAGRDecayType.none)

/-! ### Percentile extraction (monteCarlo.ts and drawdownMonteCarlo.ts) -/

/-- Source percentile (monteCarlo.ts): linear interpolation between the
order statistics at floor and ceiling of (p/100) * (length - 1). Indexing
out of range is embedded with default 0; the claims only use in-range
indices. -/
def percentile (sortedArr : List ℚ) (p : ℚ) : ℚ :=
  let index := p / 100 * ((sortedArr.length : ℚ) - 1)
  let lower := ⌊index⌋
  let upper := ⌈index⌉
  if lower = upper then sortedArr.getD lower.toNat 0
  else
    sortedArr.getD lower.toNat 0 +
      (sortedArr.getD upper.toNat 0 - sortedArr.getD lower.toNat 0) *
        (index - (lower : ℚ))

/-- Modelled from the specification numeric contract, for the refinement
comparison: the value at index p/100 * (n-1), interpolated linearly
between floor(index) and ceil(index). -/
def specPercentileInterp (sortedArr : List ℚ) (p : ℚ) : ℚ :=
  let index := p / 100 * ((sortedArr.length : ℚ) - 1)
  sortedArr.getD (⌊index⌋).toNat 0 +
    (index - (⌊index⌋ : ℚ)) *
      (sortedArr.getD (⌈index⌉).toNat 0 - sortedArr.getD (⌊index⌋).toNat 0)

/-- The per-month band extraction of runDrawdownSimulation
(drawdownMonteCarlo.ts line 155-157): the sorted element at index
floor(simulations * frac), with frac one of 0.1, 0.5, 0.9. No
interpolation is performed. -/
def drawdownPercentile (sortedArr : List ℚ) (simulations : ℕ) (frac : ℚ) : ℚ :=
  sortedArr.getD (⌊(simulations : ℚ) * frac⌋).toNat 0

/-- Ascending insertion into a sorted list (helper for the embedding of the
JavaScript numeric sort (a, b) => a - b). -/
def insertAsc {α : Type} [LinearOrder α] (x : α) : List α → List α
  | [] => [x]
  | y :: ys => if x ≤ y then x :: y :: ys else y :: insertAsc x ys

/-- Embedding of the JavaScript ascending numeric sort: the sorted
permutation of the list. -/
def sortAsc {α : Type} [LinearOrder α] (l : List α) : List α :=
  l.foldr insertAsc []

/-! ### Accumulation projector (calculations.ts) -/

/-- DCA contribution frequency. -/
inductive DCAFrequency where
  | daily
  | weekly
  | monthly
  | yearly
deriving DecidableEq, Repr

/-- Source getContributionsPerYear. -/
def getContributionsPerYear : DCAFrequency → ℚ
  | DCAFrequency.daily => 365
  | DCAFrequency.weekly => 52
  | DCAFrequency.monthly => 12
  | DCAFrequency.yearly => 1

/-- Source interface ProjectionInput. The growth model and its parameters
enter calculateProjection only through the composite year-to-price map
fun y => calculateFuturePrice(currentPrice, y, growthModel, modelParams);
that map is passed explicitly to the embedding (priceFn below) because the
power-law arm reads the wall clock and the S-curve arm is transcendental.
For the CAGR model priceFn is calculateFuturePriceCagr applied to the
parameter record. -/
structure ProjectionInput where
  currentSOL : ℚ
  currentPrice : ℚ
  years : ℚ
  dcaAmountUSD : ℚ
  dcaFrequency : DCAFrequency
  jitoSOLEnabled : Bool
  jitoSOLAPR : ℚ
deriving DecidableEq

/-- Source interface YearlyProjection. -/
structure YearlyProjection where
  year : ℕ
  solBalance : ℚ
  solPrice : ℚ
  portfolioValueUSD : ℚ
  totalInvestedUSD : ℚ
  gainUSD : ℚ
deriving DecidableEq, Inhabited, Repr

/-- Source interface ProjectionResult. -/
structure ProjectionResult where
  projections : List YearlyProjection
  finalSOL : ℚ
  finalPrice : ℚ
  finalValueUSD : ℚ
  totalInvestedUSD : ℚ
  totalGainUSD : ℚ
  initialValueUSD : ℚ
deriving DecidableEq, Repr

/-- Annual investment, source annualInvestmentUSD = dcaAmountUSD *
contributionsPerYear. -/
def annualInvestmentUSD (input : ProjectionInput) : ℚ :=
  input.dcaAmountUSD * getContributionsPerYear input.dcaFrequency

/-- State (solBalance, totalInvestedUSD) of the calculateProjection loop
after n completed years. Year n + 1 takes startPrice = currentPrice when
n = 0 and priceFn n otherwise, endPrice = priceFn (n + 1), buys at the
average of the two (guarded by avgPrice > 0 as in the source), then
applies the optional staking yield and adds the annual investment. -/
def projState (input : ProjectionInput) (priceFn : ℕ → ℚ) : ℕ → ℚ × ℚ
  | 0 => (input.currentSOL, input.currentSOL * input.currentPrice)
  | n + 1 =>
    let prev := projState input priceFn n
    let startPrice := if n = 0 then input.currentPrice else priceFn n
    let endPrice := priceFn (n + 1)
    let avgPrice := (startPrice + endPrice) / 2
    let solPurchased := if 0 < avgPrice then annualInvestmentUSD input / avgPrice else 0
    let afterBuy := prev.1 + solPurchased
    let afterYield :=
      if input.jitoSOLEnabled ∧ 0 < input.jitoSOLAPR
      then afterBuy * (1 + input.jitoSOLAPR) else afterBuy
    (afterYield, prev.2 + annualInvestmentUSD input)

/-- The yearly point pushed by calculateProjection at the end of year
(which the source records with balance and price rounded to cents and the
dollar figures rounded to whole dollars). -/
def mkYearlyPoint (input : ProjectionInput) (priceFn : ℕ → ℚ) (year : ℕ) :
    YearlyProjection :=
  let st := projState input priceFn year
  let endPrice := priceFn year
  let portfolioValueUSD := st.1 * endPrice
  { year := year
    solBalance := round2 st.1
    solPrice := round2 endPrice
    portfolioValueUSD := (jsRound portfolioValueUSD : ℚ)
    totalInvestedUSD := (jsRound st.2 : ℚ)
    gainUSD := (jsRound (portfolioValueUSD - st.2) : ℚ) }

/-- Source calculateProjection. The loop runs for year = 1 .. years (the
floor of the fractional year count, none when years < 1); when the
projection list is empty the source special-cases to a single year-0
point recording the current state. -/
def calculateProjection (input : ProjectionInput) (priceFn : ℕ → ℚ) :
    ProjectionResult :=
  let numYears := (⌊input.years⌋).toNat
  let projections := (List.range numYears).map (fun i => mkYearlyPoint input priceFn (i + 1))
  match projections.getLast? with
  | Option.none =>
    let solBalance := input.currentSOL
    let totalInvestedUSD := input.currentSOL * input.currentPrice
    let portfolioValueUSD := solBalance * input.currentPrice
    { projections := [{ year := 0
                        solBalance := round2 solBalance
                        solPrice := round2 input.currentPrice
                        portfolioValueUSD := (jsRound portfolioValueUSD : ℚ)
                        totalInvestedUSD := (jsRound totalInvestedUSD : ℚ)
                        gainUSD := 0 }]
      finalSOL := solBalance
      finalPrice := input.currentPrice
      finalValueUSD := portfolioValueUSD
      totalInvestedUSD := totalInvestedUSD
      totalGainUSD := 0
      initialValueUSD := totalInvestedUSD }
  | Option.some final =>
    { projections := projections
      finalSOL := final.solBalance
      finalPrice := final.solPrice
      finalValueUSD := final.portfolioValueUSD
      totalInvestedUSD := final.totalInvestedUSD
      totalGainUSD := final.gainUSD
      initialValueUSD := input.currentSOL * input.currentPrice }

/-! ### Drawdown Monte Carlo (drawdownMonteCarlo.ts) -/

/-- Source interface DrawdownInput. -/
structure DrawdownInput where
  startingSOL : ℚ
  startingPrice : ℚ
  monthlyIncomeToday : ℚ
  retirementYears : ℕ
  volatility : ℚ
  realGrowthRate : ℚ
  simulations : ℕ
  inflationRate : ℚ
deriving DecidableEq

/-- Source interface SimulationPath. -/
structure SimulationPath where
  id : ℕ
  months : List ℕ
  portfolioValue : List ℚ
  solBalance : List ℚ
  solPrice : List ℚ
  failed : Bool
  failureMonth : Option ℕ
deriving DecidableEq, Inhabited, Repr

/-- Source interface DrawdownResult. A percentile band entry is embedded
as (month, p10, p50, p90). -/
structure DrawdownResult where
  successRate : ℚ
  medianEndingValue : ℚ
  percentiles : List (ℕ × ℚ × ℚ × ℚ)
  failedPaths : List SimulationPath
  successfulPaths : List SimulationPath
  allPaths : List SimulationPath
  medianFailureMonth : Option ℕ
deriving DecidableEq

/-- The monthly loop of one drawdown simulation. Each iteration first
records the start-of-month state; if the balance is depleted it marks the
path failed at this month, fills the remaining months with zero balance
and value (price held constant), and stops; at the final month it stops
after recording; otherwise it withdraws (clamping at zero when the
withdrawal reaches the whole balance), advances the price by the realized
multiplier for this month, and escalates the income by the monthly
inflation factor. The fuel argument is totalMonths + 1 - month and only
drives termination; the loop always stops through one of the two recorded
exits. -/
def simGo (id totalMonths : ℕ) (monthlyInflation : ℚ) (mult : ℕ → ℚ) :
    ℕ → ℕ → ℚ → ℚ → ℚ → SimulationPath
  | 0, _, _, _, _ =>
    { id := id, months := [], portfolioValue := [], solBalance := [],
      solPrice := [], failed := false, failureMonth := Option.none }
  | fuel + 1, month, currentSOL, currentPrice, currentMonthlyIncome =>
    if currentSOL ≤ 0 then
      { id := id
        months := month :: List.range' (month + 1) (totalMonths - month)
        portfolioValue := currentSOL * currentPrice :: List.replicate (totalMonths - month) 0
        solBalance := currentSOL :: List.replicate (totalMonths - month) 0
        solPrice := currentPrice :: List.replicate (totalMonths - month) currentPrice
        failed := true
        failureMonth := Option.some month }
    else if month = totalMonths then
      { id := id, months := [month], portfolioValue := [currentSOL * currentPrice],
        solBalance := [currentSOL], solPrice := [currentPrice],
        failed := false, failureMonth := Option.none }
    else
      let withdrawalSOL := currentMonthlyIncome / currentPrice
      let newSOL := if currentSOL ≤ withdrawalSOL then 0 else currentSOL - withdrawalSOL
      let newPrice := currentPrice * mult month
      let newIncome := currentMonthlyIncome * (1 + monthlyInflation)
      let rest := simGo id totalMonths monthlyInflation mult fuel (month + 1) newSOL newPrice newIncome
      { rest with
        months := month :: rest.months
        portfolioValue := currentSOL * currentPrice :: rest.portfolioValue
        solBalance := currentSOL :: rest.solBalance
        solPrice := currentPrice :: rest.solPrice }

/-- One full drawdown path: the monthly loop started at month 0 from the
retirement-day state. -/
def simulatePath (input : DrawdownInput) (monthlyInflation : ℚ) (mult : ℕ → ℚ)
    (id : ℕ) : SimulationPath :=
  let totalMonths := input.retirementYears * 12
  simGo id totalMonths monthlyInflation mult (totalMonths + 1) 0
    input.startingSOL input.startingPrice input.monthlyIncomeToday

/-- Source runDrawdownSimulation. The realized price multipliers are
threaded as mult sim month (see the file header); monthlyInflation is the
monthly-equivalent inflation rate the source derives from the annual
rate. Aggregation follows the source: success rate over all simulations,
median ending value over successful paths only, per-month bands over all
paths through drawdownPercentile, median failure month over failed paths,
and samples of at most ten failed and ten successful paths. -/
def runDrawdownSimulation (input : DrawdownInput) (monthlyInflation : ℚ)
    (mult : ℕ → ℕ → ℚ) : DrawdownResult :=
  let totalMonths := input.retirementYears * 12
  let allPaths := (List.range input.simulations).map
    (fun sim => simulatePath input monthlyInflation (mult sim) sim)
  let successCount := (allPaths.filter (fun p => !p.failed)).length
  let failureMonths := (allPaths.filter (fun p => p.failed)).filterMap (fun p => p.failureMonth)
  let endingValues := (allPaths.filter (fun p => !p.failed)).map
    (fun p => p.portfolioValue.getD (p.portfolioValue.length - 1) 0)
  let successRate := (successCount : ℚ) / (input.simulations : ℚ)
  let percentiles := (List.range (totalMonths + 1)).map (fun month =>
    let valuesAtMonth := sortAsc (allPaths.map (fun p => p.portfolioValue.getD month 0))
    (month,
      drawdownPercentile valuesAtMonth input.simulations (1/10),
      drawdownPercentile valuesAtMonth input.simulations (1/2),
      drawdownPercentile valuesAtMonth input.simulations (9/10)))
  let medianEndingValue :=
    if endingValues.length = 0 then 0
    else (sortAsc endingValues).getD (endingValues.length / 2) 0
  let medianFailureMonth :=
    if failureMonths.length = 0 then Option.none
    else Option.some ((sortAsc failureMonths).getD (failureMonths.length / 2) 0)
  { successRate := successRate
    medianEndingValue := medianEndingValue
    percentiles := percentiles
    failedPaths := (allPaths.filter (fun p => p.failed)).take 10
    successfulPaths := (allPaths.filter (fun p => !p.failed)).take 10
    allPaths := allPaths
    medianFailureMonth := medianFailureMonth }

/-! ### Inflation adjustment (Results.tsx inflation utilities) -/

/-- Inflation model selector. -/
inductive InflationType where
  | linear
  | cyclical
deriving DecidableEq

/-- Source interface InflationParams. -/
structure InflationParams where
  enabled : Bool
  type : InflationType
  rate : ℝ
  amplitude : ℝ
  cyclePeriod : ℝ
  debasementRate : ℝ

/-- Source getCyclicalInflationRate: sinusoidal oscillation around the
base rate. -/
noncomputable def getCyclicalInflationRate (year : ℕ) (baseRate amplitude cyclePeriod : ℝ) : ℝ :=
  baseRate + amplitude * Real.sin (2 * Real.pi * (year : ℝ) / cyclePeriod)

/-- The yearly inflation rate chosen inside the getCumulativeInflationFactor
loop, before the deflation floor. -/
noncomputable def yearlyInflationRate (params : InflationParams) (year : ℕ) : ℝ :=
  if params.type = InflationType.linear then params.rate
  else getCyclicalInflationRate year params.rate params.amplitude params.cyclePeriod

/-- Source getCumulativeInflationFactor: 1 when disabled, otherwise the
product over year = 1 .. years of (1 + max 0 rate(year)). -/
noncomputable def getCumulativeInflationFactor (years : ℕ) (params : InflationParams) : ℝ :=
  if params.enabled then
    (List.range years).foldl
      (fun factor y => factor * (1 + max 0 (yearlyInflationRate params (y + 1)))) 1
  else 1

/-- Source toTodaysDollars: divide the nominal value by the cumulative
inflation factor. -/
noncomputable def toTodaysDollars (nominalValue : ℝ) (years : ℕ) (params : InflationParams) : ℝ :=
  nominalValue / getCumulativeInflationFactor years params

/-! ### S-curve growth model (growthModels.ts sCurvePrice), over the reals -/

/-- Source sCurvePrice: if the current price is at or above the ceiling
return the ceiling; otherwise decay the remaining growth exponentially
with half-life yearsToHalfRemaining. -/
noncomputable def sCurvePrice (currentPrice yearsFromNow yearsToHalfRemaining maxPrice : ℝ) : ℝ :=
  if maxPrice ≤ currentPrice then maxPrice
  else
    let remainingGrowth := maxPrice - currentPrice
    let k := Real.log 2 / yearsToHalfRemaining
    maxPrice - remainingGrowth * Real.exp (-k * yearsFromNow)

/-! ### Concrete scenario inputs used by individual claims -/

/-- Growth model parameters of specification scenario 3: CAGR with rate 0
and decay "none". -/
def c2Params : GrowthModelParams :=
  { cagr := Option.some 0, cagrDecay := Option.some CAGRDecayType.none,
    powerLawSlope := Option.none, sCurveYearsToHalfRemaining := Option.none,
    sCurveMaxPrice := Option.none }

/-- Projection input of specification scenario 3: balance 0, price 100,
one year, 100 dollars contributed monthly. -/
def c2Input : ProjectionInput :=
  { currentSOL := 0, currentPrice := 100, years := 1, dcaAmountUSD := 100,
    dcaFrequency := DCAFrequency.monthly, jitoSOLEnabled := false, jitoSOLAPR := 3/40 }

/-- The year-to-price map calculateProjection uses for scenario 3: the
cagr arm of calculateFuturePrice at starting price 100 with c2Params. -/
def c2PriceFn (y : ℕ) : ℚ := calculateFuturePriceCagr 100 y c2Params

/-- CAGR 25 percent without decay, for the rounding counterexample. -/
def c4Params : GrowthModelParams :=
  { cagr := Option.some (1/4), cagrDecay := Option.some CAGRDecayType.none,
    powerLawSlope := Option.none, sCurveYearsToHalfRemaining := Option.none,
    sCurveMaxPrice := Option.none }

/-- Projection input for the rounding counterexample: 10000 units held at
price 100.01, one year, no contributions. -/
def c4Input : ProjectionInput :=
  { currentSOL := 10000, currentPrice := 10001/100, years := 1, dcaAmountUSD := 0,
    dcaFrequency := DCAFrequency.monthly, jitoSOLEnabled := false, jitoSOLAPR := 3/40 }

/-- The year-to-price map for the rounding counterexample. -/
def c4PriceFn (y : ℕ) : ℚ := calculateFuturePriceCagr (10001/100) y c4Params

/-- Projection input with years = 0 and a starting price of 100.005
dollars, whose cent rounding is observable in the recorded point. -/
def c8Input : ProjectionInput :=
  { currentSOL := 0, currentPrice := 20001/200, years := 0, dcaAmountUSD := 0,
    dcaFrequency := DCAFrequency.monthly, jitoSOLEnabled := false, jitoSOLAPR := 3/40 }

/-- Drawdown input whose single simulated path fails immediately: zero
starting balance, price 100, one retirement year. -/
def ddFailInput : DrawdownInput :=
  { startingSOL := 0, startingPrice := 100, monthlyIncomeToday := 1,
    retirementYears := 1, volatility := 0, realGrowthRate := 0,
    simulations := 1, inflationRate := 0 }

/-! ### Helper lemmas -/

/-- Rounding error bound for the embedded Math.round: at most half. -/
theorem jsRound_err (x : ℚ) : |(jsRound x : ℚ) - x| ≤ 1/2 := by
  rw [abs_le]
  unfold jsRound
  constructor
  · have h := Int.sub_one_lt_floor (x + 1/2)
    push_cast at h ⊢
    linarith
  · have h := Int.floor_le (x + 1/2)
    push_cast at h ⊢
    linarith

/-- Rounding to cents moves a value by at most half a cent. -/
theorem round2_err (x : ℚ) : |round2 x - x| ≤ 1/200 := by
  have h := jsRound_err (x * 100)
  unfold round2
  rw [abs_le] at h ⊢
  constructor <;> [linarith [h.1]; linarith [h.2]]

/-- Reading a replicated list with the replicated element as default always
yields that element. -/
theorem getD_replicate_self {α : Type} [Inhabited α] (n k : ℕ) (a : α) :
    (List.replicate n a).getD k a = a := by
  simp only [List.getD]
  rcases Nat.lt_or_ge k n with h | h
  · simp [List.getElem?_replicate, h]
  · have hlen : (List.replicate n a).length ≤ k := by simpa using h
    simp [List.getElem?_eq_none_iff.mpr hlen]

/-- Reading a cons cell at a positive index reads the tail. -/
theorem getD_cons_pos {α : Type} (x a : α) (l : List α) (k : ℕ) (h : 0 < k) :
    (x :: l).getD k a = l.getD (k - 1) a := by
  obtain ⟨j, rfl⟩ : ∃ j, k = j + 1 := ⟨k - 1, by omega⟩
  simp [List.getD_cons_succ]

/-- A filter that keeps the whole length keeps every element. -/
theorem length_filter_eq_imp {α : Type} (l : List α) (p : α → Bool)
    (h : (l.filter p).length = l.length) : ∀ a ∈ l, p a := by
  induction l with
  | nil => simp
  | cons x xs ih =>
    simp only [List.filter] at h
    cases hx : p x with
    | true =>
      simp only [hx, List.length_cons] at h
      intro a ha
      rcases List.mem_cons.mp ha with rfl | ha2
      · exact hx
      · exact ih (by omega) a ha2
    | false =>
      exfalso
      have hle := List.length_filter_le p xs
      simp only [hx, List.length_cons] at h
      omega

/-- The path list of the drawdown result is one simulated path per
simulation index. -/
theorem allPaths_eq (input : DrawdownInput) (mi : ℚ) (mult : ℕ → ℕ → ℚ) :
    (runDrawdownSimulation input mi mult).allPaths =
      (List.range input.simulations).map
        (fun sim => simulatePath input mi (mult sim) sim) := rfl

/-- Unfolding of the monthly loop in the depleted case: the month is
recorded, the path is marked failed at it, and the remaining months are
filled with zeros. -/
theorem simGo_depleted (id totalMonths : ℕ) (mi : ℚ) (mult : ℕ → ℚ) (fuel month : ℕ)
    (sol price income : ℚ) (h : sol ≤ 0) :
    simGo id totalMonths mi mult (fuel + 1) month sol price income =
      { id := id
        months := month :: List.range' (month + 1) (totalMonths - month)
        portfolioValue := sol * price :: List.replicate (totalMonths - month) 0
        solBalance := sol :: List.replicate (totalMonths - month) 0
        solPrice := price :: List.replicate (totalMonths - month) price
        failed := true
        failureMonth := Option.some month } := by
  rw [simGo, if_pos h]

/-- Core invariant of the monthly loop: a failed run names a failure month
at or after its starting month, and every recorded entry after the failure
month holds zero portfolio value and zero balance. -/
theorem simGo_failed_suffix (id tm : ℕ) (mi : ℚ) (mult : ℕ → ℚ) :
    ∀ (fuel month : ℕ) (sol price income : ℚ),
      (simGo id tm mi mult fuel month sol price income).failed = true →
      ∃ m, (simGo id tm mi mult fuel month sol price income).failureMonth = Option.some m ∧
        month ≤ m ∧
        ∀ k, m - month < k →
          (simGo id tm mi mult fuel month sol price income).portfolioValue.getD k 0 = 0 ∧
          (simGo id tm mi mult fuel month sol price income).solBalance.getD k 0 = 0 := by
  intro fuel
  induction fuel with
  | zero =>
    intro month sol price income h
    simp [simGo] at h
  | succ f ih =>
    intro month sol price income h
    rw [simGo] at h ⊢
    by_cases h1 : sol ≤ 0
    · rw [if_pos h1] at h ⊢
      refine ⟨month, rfl, le_rfl, ?_⟩
      intro k hk
      simp only [Nat.sub_self] at hk
      constructor
      · rw [getD_cons_pos _ _ _ _ hk]
        exact getD_replicate_self _ _ _
      · rw [getD_cons_pos _ _ _ _ hk]
        exact getD_replicate_self _ _ _
    · rw [if_neg h1] at h ⊢
      by_cases h2 : month = tm
      · rw [if_pos h2] at h
        simp at h
      · rw [if_neg h2] at h ⊢
        simp only [] at h ⊢
        obtain ⟨m, hm, hmon, hz⟩ := ih (month + 1) _ _ _ h
        refine ⟨m, hm, by omega, ?_⟩
        intro k hk
        have hk1 : 0 < k := by omega
        have hk2 : m - (month + 1) < k - 1 := by omega
        constructor
        · rw [getD_cons_pos _ _ _ _ hk1]
          exact (hz (k - 1) hk2).1
        · rw [getD_cons_pos _ _ _ _ hk1]
          exact (hz (k - 1) hk2).2

/-- The invested-total component of the projection loop state is the
initial holdings value plus the contributions of the completed years. -/
theorem projState_invested (input : ProjectionInput) (pf : ℕ → ℚ) (n : ℕ) :
    (projState input pf n).2 =
      input.currentSOL * input.currentPrice + (n : ℚ) * annualInvestmentUSD input := by
  induction n with
  | zero => simp [projState]
  | succ m ih =>
    rw [projState]
    simp only []
    rw [ih]
    push_cast
    ring

/-- The last element of a non-empty projection list is the point of the
last year. -/
theorem projections_getLast_eq (input : ProjectionInput) (pf : ℕ → ℚ) (m : ℕ) :
    ((List.range (m + 1)).map (fun i => mkYearlyPoint input pf (i + 1))).getLast? =
      Option.some (mkYearlyPoint input pf (m + 1)) := by
  rw [List.range_succ, List.map_append]
  simp

/-- Evaluation of calculateProjection with at least one projected year. -/
theorem calculateProjection_eq_pos (input : ProjectionInput) (pf : ℕ → ℚ) (m : ℕ)
    (hy : (⌊input.years⌋).toNat = m + 1) :
    calculateProjection input pf =
      { projections := (List.range (m + 1)).map (fun i => mkYearlyPoint input pf (i + 1))
        finalSOL := (mkYearlyPoint input pf (m + 1)).solBalance
        finalPrice := (mkYearlyPoint input pf (m + 1)).solPrice
        finalValueUSD := (mkYearlyPoint input pf (m + 1)).portfolioValueUSD
        totalInvestedUSD := (mkYearlyPoint input pf (m + 1)).totalInvestedUSD
        totalGainUSD := (mkYearlyPoint input pf (m + 1)).gainUSD
        initialValueUSD := input.currentSOL * input.currentPrice } := by
  unfold calculateProjection
  simp only [hy]
  rw [projections_getLast_eq]

/-- Evaluation of calculateProjection in the empty-loop edge case. -/
theorem calculateProjection_eq_zero (input : ProjectionInput) (pf : ℕ → ℚ)
    (hy : (⌊input.years⌋).toNat = 0) :
    calculateProjection input pf =
      { projections := [{ year := 0
                          solBalance := round2 input.currentSOL
                          solPrice := round2 input.currentPrice
                          portfolioValueUSD := (jsRound (input.currentSOL * input.currentPrice) : ℚ)
                          totalInvestedUSD := (jsRound (input.currentSOL * input.currentPrice) : ℚ)
                          gainUSD := 0 }]
        finalSOL := input.currentSOL
        finalPrice := input.currentPrice
        finalValueUSD := input.currentSOL * input.currentPrice
        totalInvestedUSD := input.currentSOL * input.currentPrice
        totalGainUSD := 0
        initialValueUSD := input.currentSOL * input.currentPrice } := by
  unfold calculateProjection
  simp only [hy, List.range_zero, List.map_nil]
  rfl

/-- The single path simulated from ddFailInput, fully evaluated: immediate
failure at month 0 with the remaining twelve months zero-filled. -/
theorem ddFailInput_path_eq :
    simulatePath ddFailInput 0 (fun _ => 1) 0 =
      { id := 0
        months := 0 :: List.range' 1 12
        portfolioValue := 0 :: List.replicate 12 0
        solBalance := 0 :: List.replicate 12 0
        solPrice := 100 :: List.replicate 12 100
        failed := true
        failureMonth := Option.some 0 } := by
  have h : simulatePath ddFailInput 0 (fun _ => 1) 0 =
      simGo 0 12 0 (fun _ => 1) (12 + 1) 0 0 100 1 := by
    norm_num [simulatePath, ddFailInput]
  rw [h, simGo_depleted 0 12 0 (fun _ => 1) 12 0 0 100 1 le_rfl]
  norm_num

/-! ### Claim theorems -/

/-- Claim C1, counterexample: the interpolating percentile helper of the
accumulation Monte Carlo and the per-month band extraction of the drawdown
simulation disagree already on the sorted two-element array [0, 1] at the
50th percentile: the former interpolates to 1/2, the latter returns the
element at index floor(2 * 0.5) = 1, which is 1. -/
theorem percentile_vs_drawdown_counterexample :
    percentile [0, 1] 50 ≠ drawdownPercentile [0, 1] 2 (1/2) ∧
      percentile [0, 1] 50 = 1/2 ∧ drawdownPercentile [0, 1] 2 (1/2) = 1 := by
  have hcl : (⌈(1:ℚ) / 2⌉ : ℤ) = 1 := by norm_num [Int.ceil_eq_iff]
  norm_num [percentile, drawdownPercentile, hcl]

/-- Claim C1, amended: the accumulation percentile helper computes exactly
the interpolated value at index p/100 * (n - 1) prescribed by the numeric
contract, for every sorted array and percentile; the drawdown band
computation instead returns the sorted element at index
floor(simulations * frac) with no interpolation, so the two extractions do
not compute the same function. -/
theorem percentile_accum_eq_spec_drawdown_floor (sortedArr : List ℚ) (p frac : ℚ) (n : ℕ) :
    percentile sortedArr p = specPercentileInterp sortedArr p ∧
      drawdownPercentile sortedArr n frac =
        sortedArr.getD ((⌊(n : ℚ) * frac⌋).toNat) 0 := by
  refine ⟨?_, rfl⟩
  unfold percentile specPercentileInterp
  set index := p / 100 * ((sortedArr.length : ℚ) - 1) with hidx
  by_cases hc : ⌊index⌋ = ⌈index⌉
  · rw [if_pos hc]
    have hint : ((⌊index⌋ : ℤ) : ℚ) = index := by
      refine le_antisymm (Int.floor_le index) ?_
      rw [hc]
      exact Int.le_ceil index
    simp only [← hc, hint]
    ring
  · rw [if_neg hc]
    simp only []
    ring

/-- Claim C2: evaluation of specification scenario 3 on the code. With
growth model CAGR, rate 0 and decay "none", the projector does not keep
the price at 100: the default idiom params.cagr || 0.25 treats the falsy
rate 0 as absent and substitutes 25 percent, so the year-end price is 125,
the final asset balance is 10.67 units instead of the 12 units the
specification requires, and only totalInvestedUSD = 1200 matches. -/
theorem cagr_zero_rate_scenario_eval :
    c2PriceFn 1 = 125 ∧
      (calculateProjection c2Input c2PriceFn).finalSOL = 1067/100 ∧
      (calculateProjection c2Input c2PriceFn).finalSOL ≠ 12 ∧
      (calculateProjection c2Input c2PriceFn).totalInvestedUSD = 1200 := by
  refine ⟨?_, ?_, ?_, ?_⟩ <;>
    norm_num [calculateProjection, mkYearlyPoint, projState, annualInvestmentUSD,
      getContributionsPerYear, c2Input, c2PriceFn, calculateFuturePriceCagr,
      cagrPrice, jsOrQ, c2Params, round2, jsRound, List.range_succ,
      Int.floor_eq_iff, List.headI]

/-- Claim C3: in every path returned by runDrawdownSimulation, once the
path has failed at month m, every recorded later month holds portfolio
value 0 and balance 0; the failed flag of a returned path is final, so a
failed path never again shows a positive value or balance. -/
theorem drawdown_failure_monotone (input : DrawdownInput) (mi : ℚ) (mult : ℕ → ℕ → ℚ)
    (path : SimulationPath) (hmem : path ∈ (runDrawdownSimulation input mi mult).allPaths)
    (hfail : path.failed = true) (m : ℕ) (hm : path.failureMonth = Option.some m)
    (k : ℕ) (hk : m < k) (hlen : k < path.portfolioValue.length) :
    path.portfolioValue.getD k 0 = 0 ∧ path.solBalance.getD k 0 = 0 := by
  rw [allPaths_eq] at hmem
  obtain ⟨sim, hsim, rfl⟩ := List.mem_map.mp hmem
  unfold simulatePath at hfail hm ⊢
  obtain ⟨m2, hm2, hmon, hz⟩ :=
    simGo_failed_suffix sim (input.retirementYears * 12) mi (mult sim)
      (input.retirementYears * 12 + 1) 0 input.startingSOL input.startingPrice
      input.monthlyIncomeToday hfail
  rw [hm] at hm2
  obtain rfl : m = m2 := by injection hm2
  exact hz k (by omega)

/-- Claim C3, witness: the immediately failing path of ddFailInput fails
at month 0 and holds zero value and balance at the recorded month 5. -/
theorem drawdown_failure_monotone_witness :
    (simulatePath ddFailInput 0 (fun _ => 1) 0).portfolioValue.getD 5 0 = 0 ∧
      (simulatePath ddFailInput 0 (fun _ => 1) 0).solBalance.getD 5 0 = 0 :=
  drawdown_failure_monotone ddFailInput 0 (fun _ _ => 1)
    (simulatePath ddFailInput 0 (fun _ => 1) 0)
    (by
      rw [allPaths_eq]
      norm_num [ddFailInput, List.range_succ])
    (by rw [ddFailInput_path_eq])
    0
    (by rw [ddFailInput_path_eq])
    5
    (by norm_num)
    (by
      rw [ddFailInput_path_eq]
      norm_num)

/-- Claim C4, counterexample: with 10000 units held at price 100.01 and a
25 percent CAGR year, the recorded portfolioValueUSD (1250125, rounded
from the unrounded product) differs from the product of the recorded
cent-rounded solBalance (10000) and solPrice (125.01) by 25 dollars,
far more than one cent. -/
theorem portfolioValue_product_counterexample :
    (calculateProjection c4Input c4PriceFn).projections.headI.portfolioValueUSD -
        (calculateProjection c4Input c4PriceFn).projections.headI.solBalance *
          (calculateProjection c4Input c4PriceFn).projections.headI.solPrice = 25 ∧
      ¬ |((calculateProjection c4Input c4PriceFn).projections.headI.portfolioValueUSD -
          (calculateProjection c4Input c4PriceFn).projections.headI.solBalance *
            (calculateProjection c4Input c4PriceFn).projections.headI.solPrice)| ≤ 1/100 := by
  refine ⟨?_, ?_⟩ <;>
    norm_num [calculateProjection, mkYearlyPoint, projState, annualInvestmentUSD,
      getContributionsPerYear, c4Input, c4PriceFn, calculateFuturePriceCagr,
      cagrPrice, jsOrQ, c4Params, round2, jsRound, List.range_succ,
      Int.floor_eq_iff, List.headI, abs_le]

/-- Claim C4, amended: every recorded point of every projection arises
from unrounded balance B and end price P of that year: solBalance and
solPrice are B and P rounded to cents (within half a cent), and
portfolioValueUSD is the unrounded product B * P rounded to the nearest
whole dollar (within half a dollar); the identity need not hold within
one cent against the separately rounded recorded fields. -/
theorem portfolioValue_rounding_amended (input : ProjectionInput) (pf : ℕ → ℚ)
    (pt : YearlyProjection) (hmem : pt ∈ (calculateProjection input pf).projections) :
    ∃ B P : ℚ,
      pt.solBalance = round2 B ∧ pt.solPrice = round2 P ∧
        pt.portfolioValueUSD = (jsRound (B * P) : ℚ) ∧
        |pt.portfolioValueUSD - B * P| ≤ 1/2 ∧
        |pt.solBalance - B| ≤ 1/200 ∧ |pt.solPrice - P| ≤ 1/200 := by
  rcases hn : (⌊input.years⌋).toNat with _ | m
  · rw [calculateProjection_eq_zero input pf hn] at hmem
    simp only [List.mem_singleton] at hmem
    subst hmem
    exact ⟨input.currentSOL, input.currentPrice, rfl, rfl, rfl,
      jsRound_err _, round2_err _, round2_err _⟩
  · rw [calculateProjection_eq_pos input pf m hn] at hmem
    simp only [List.mem_map, List.mem_range] at hmem
    obtain ⟨i, hi, rfl⟩ := hmem
    exact ⟨(projState input pf (i + 1)).1, pf (i + 1), rfl, rfl, rfl,
      jsRound_err _, round2_err _, round2_err _⟩

/-- Claim C4, witness: the year-0 point of a concrete projection admits
the rounding decomposition. -/
theorem portfolioValue_rounding_amended_witness :
    ∃ B P : ℚ,
      (calculateProjection
          { currentSOL := 5, currentPrice := 100, years := 0, dcaAmountUSD := 0,
            dcaFrequency := DCAFrequency.monthly, jitoSOLEnabled := false, jitoSOLAPR := 3/40 }
          (fun _ => 100)).projections.headI.solBalance = round2 B ∧
        (calculateProjection
          { currentSOL := 5, currentPrice := 100, years := 0, dcaAmountUSD := 0,
            dcaFrequency := DCAFrequency.monthly, jitoSOLEnabled := false, jitoSOLAPR := 3/40 }
          (fun _ => 100)).projections.headI.solPrice = round2 P ∧
        (calculateProjection
          { currentSOL := 5, currentPrice := 100, years := 0, dcaAmountUSD := 0,
            dcaFrequency := DCAFrequency.monthly, jitoSOLEnabled := false, jitoSOLAPR := 3/40 }
          (fun _ => 100)).projections.headI.portfolioValueUSD = (jsRound (B * P) : ℚ) ∧
        |(calculateProjection
          { currentSOL := 5, currentPrice := 100, years := 0, dcaAmountUSD := 0,
            dcaFrequency := DCAFrequency.monthly, jitoSOLEnabled := false, jitoSOLAPR := 3/40 }
          (fun _ => 100)).projections.headI.portfolioValueUSD - B * P| ≤ 1/2 ∧
        |(calculateProjection
          { currentSOL := 5, currentPrice := 100, years := 0, dcaAmountUSD := 0,
            dcaFrequency := DCAFrequency.monthly, jitoSOLEnabled := false, jitoSOLAPR := 3/40 }
          (fun _ => 100)).projections.headI.solBalance - B| ≤ 1/200 ∧
        |(calculateProjection
          { currentSOL := 5, currentPrice := 100, years := 0, dcaAmountUSD := 0,
            dcaFrequency := DCAFrequency.monthly, jitoSOLEnabled := false, jitoSOLAPR := 3/40 }
          (fun _ => 100)).projections.headI.solPrice - P| ≤ 1/200 :=
  portfolioValue_rounding_amended _ _ _ (by
    rw [calculateProjection_eq_zero _ _ (by norm_num)]
    simp [List.headI])

/-- Claim C5, counterexample: with starting rate 1 percent, the growth
applied in year 1 of the auto-decay loop is the raw starting rate, below
the 3 percent floor: the price grows from 100 to 101 in year 1. -/
theorem cagr_decay_floor_counterexample :
    cagrPrice 100 1 (1/100) CAGRDecayType.auto = 101 ∧ cagrRate (1/100) 0 < CAGR_FLOOR := by
  norm_num [cagrPrice, cagrAutoPrice, cagrRate, CAGR_FLOOR]

/-- Claim C5, amended: the floor constrains the decayed rates, not the
starting rate: for every year y at least 1, the rate the auto-decay loop
applies in year y is at least the 3 percent floor provided the starting
rate is itself at least the floor or y is at least 2 (the applied rate of
year 1 is the raw starting rate); this holds for every horizon, not only
up to 50 years, and the price of year y is the prior price times one plus
that applied rate. -/
theorem cagr_decay_floor_amended (c p : ℚ) (y : ℕ) (hy : 1 ≤ y)
    (hc : CAGR_FLOOR ≤ c ∨ 2 ≤ y) :
    CAGR_FLOOR ≤ cagrRate c (y - 1) ∧
      cagrAutoPrice p c y = cagrAutoPrice p c (y - 1) * (1 + cagrRate c (y - 1)) := by
  obtain ⟨n, rfl⟩ : ∃ n, y = n + 1 := ⟨y - 1, by omega⟩
  simp only [Nat.add_sub_cancel]
  constructor
  · cases n with
    | zero =>
      rcases hc with hc | hc
      · simpa [cagrRate] using hc
      · omega
    | succ m =>
      rw [cagrRate]
      exact le_max_left _ _
  · rw [cagrAutoPrice]

/-- Claim C5, witness: at starting rate 25 percent the rate applied in
year 3 respects the floor. -/
theorem cagr_decay_floor_amended_witness :
    CAGR_FLOOR ≤ cagrRate (1/4) (3 - 1) ∧
      cagrAutoPrice 100 (1/4) 3 = cagrAutoPrice 100 (1/4) (3 - 1) * (1 + cagrRate (1/4) (3 - 1)) :=
  cagr_decay_floor_amended (1/4) 100 3 (by norm_num) (Or.inl (by norm_num [CAGR_FLOOR]))

/-- Claim C6: for positive current price and half-life and non-negative
years, the S-curve price never exceeds the ceiling, is non-decreasing in
the year count while the current price is below the ceiling, and returns
exactly the ceiling when the current price is at or above it. -/
theorem sCurvePrice_ceiling_monotone (P t t2 hl M : ℝ) (hP : 0 < P) (hh : 0 < hl)
    (ht : 0 ≤ t) (ht2 : t ≤ t2) :
    sCurvePrice P t hl M ≤ M ∧
      (P < M → sCurvePrice P t hl M ≤ sCurvePrice P t2 hl M) ∧
      (M ≤ P → sCurvePrice P t hl M = M) := by
  unfold sCurvePrice
  by_cases hcase : M ≤ P
  · simp [hcase]
  · push_neg at hcase
    rw [if_neg (not_le.mpr hcase), if_neg (not_le.mpr hcase)]
    refine ⟨?_, fun _ => ?_, fun hMP => absurd hMP (not_le.mpr hcase)⟩
    · have h1 : 0 < M - P := by linarith
      have h2 : 0 < Real.exp (-(Real.log 2 / hl) * t) := Real.exp_pos _
      nlinarith
    · have hk : 0 < Real.log 2 / hl := div_pos (Real.log_pos (by norm_num)) hh
      have hmono : Real.exp (-(Real.log 2 / hl) * t2) ≤ Real.exp (-(Real.log 2 / hl) * t) := by
        apply Real.exp_le_exp.mpr
        nlinarith
      have h1 : 0 < M - P := by linarith
      nlinarith

/-- Claim C6, witness: the S-curve at price 100, half-life 10 and ceiling
50000 stays at or below the ceiling and is monotone from year 1 to 2. -/
theorem sCurvePrice_ceiling_monotone_witness :
    sCurvePrice 100 1 10 50000 ≤ 50000 ∧
      ((100:ℝ) < 50000 → sCurvePrice 100 1 10 50000 ≤ sCurvePrice 100 2 10 50000) ∧
      ((50000:ℝ) ≤ 100 → sCurvePrice 100 1 10 50000 = 50000) :=
  sCurvePrice_ceiling_monotone 100 1 2 10 50000 (by norm_num) (by norm_num) (by norm_num)
    (by norm_num)

/-- Claim C7: for every drawdown input with at least one simulation, the
success rate lies between 0 and 1, and a success rate of exactly 1 forces
every simulated path to be unfailed. -/
theorem drawdown_successRate_bounds (input : DrawdownInput) (mi : ℚ) (mult : ℕ → ℕ → ℚ)
    (hsim : 1 ≤ input.simulations) :
    0 ≤ (runDrawdownSimulation input mi mult).successRate ∧
      (runDrawdownSimulation input mi mult).successRate ≤ 1 ∧
      ((runDrawdownSimulation input mi mult).successRate = 1 →
        ∀ p ∈ (runDrawdownSimulation input mi mult).allPaths, p.failed = false) := by
  have hrate : (runDrawdownSimulation input mi mult).successRate =
      ((((runDrawdownSimulation input mi mult).allPaths.filter
          (fun p => !p.failed)).length : ℚ) / (input.simulations : ℚ)) := rfl
  have hlen : (runDrawdownSimulation input mi mult).allPaths.length = input.simulations := by
    rw [allPaths_eq]
    simp
  have hcle : ((runDrawdownSimulation input mi mult).allPaths.filter
      (fun p => !p.failed)).length ≤ input.simulations := by
    rw [← hlen]
    exact List.length_filter_le _ _
  have hpos : (0 : ℚ) < (input.simulations : ℚ) := by
    exact_mod_cast Nat.lt_of_lt_of_le Nat.zero_lt_one hsim
  refine ⟨?_, ?_, ?_⟩
  · rw [hrate]
    positivity
  · rw [hrate]
    rw [div_le_one hpos]
    exact_mod_cast hcle
  · intro h1 p hp
    rw [hrate, div_eq_one_iff_eq (ne_of_gt hpos)] at h1
    have hc : ((runDrawdownSimulation input mi mult).allPaths.filter
        (fun p => !p.failed)).length = (runDrawdownSimulation input mi mult).allPaths.length := by
      rw [hlen]
      exact_mod_cast h1
    have := length_filter_eq_imp _ _ hc p hp
    simpa using this

/-- Claim C7, witness: the bounds at the concrete one-simulation input. -/
theorem drawdown_successRate_bounds_witness :
    0 ≤ (runDrawdownSimulation ddFailInput 0 (fun _ _ => 1)).successRate ∧
      (runDrawdownSimulation ddFailInput 0 (fun _ _ => 1)).successRate ≤ 1 ∧
      ((runDrawdownSimulation ddFailInput 0 (fun _ _ => 1)).successRate = 1 →
        ∀ p ∈ (runDrawdownSimulation ddFailInput 0 (fun _ _ => 1)).allPaths, p.failed = false) :=
  drawdown_successRate_bounds ddFailInput 0 (fun _ _ => 1) (by norm_num [ddFailInput])

/-- Claim C8, counterexample: with years = 0 and starting price 100.005
dollars the single recorded point stores the cent-rounded price 100.01,
not the starting price, so the recorded point is not literally the
current state. -/
theorem projection_short_horizon_counterexample :
    (calculateProjection c8Input (fun _ => 20001/200)).projections.headI.solPrice ≠
      c8Input.currentPrice ∧
      (calculateProjection c8Input (fun _ => 20001/200)).projections.headI.solPrice = 10001/100 := by
  refine ⟨?_, ?_⟩ <;>
    norm_num [calculateProjection, c8Input, round2, jsRound, Int.floor_eq_iff, List.headI]

/-- Claim C8, amended: for every projection input with years below 1 and
valid balance and price, the result is never empty: it is exactly one
point, carrying year 0, gain 0, the starting balance and price rounded to
cents (within half a cent of the true values) and the portfolio value
rounded to whole dollars (within half a dollar of balance times price). -/
theorem projection_short_horizon_amended (input : ProjectionInput) (pf : ℕ → ℚ)
    (hy : input.years < 1) (hb : 0 ≤ input.currentSOL) (hp : 0 < input.currentPrice) :
    (calculateProjection input pf).projections ≠ [] ∧
      (calculateProjection input pf).projections.length = 1 ∧
      (calculateProjection input pf).projections.headI.year = 0 ∧
      (calculateProjection input pf).projections.headI.gainUSD = 0 ∧
      |(calculateProjection input pf).projections.headI.solBalance - input.currentSOL| ≤ 1/200 ∧
      |(calculateProjection input pf).projections.headI.solPrice - input.currentPrice| ≤ 1/200 ∧
      |(calculateProjection input pf).projections.headI.portfolioValueUSD -
          input.currentSOL * input.currentPrice| ≤ 1/2 := by
  have hn : (⌊input.years⌋).toNat = 0 := by
    have h1 : ⌊input.years⌋ < 1 := Int.floor_lt.mpr (by exact_mod_cast hy)
    omega
  rw [calculateProjection_eq_zero input pf hn]
  refine ⟨by simp, by simp, rfl, rfl, ?_, ?_, ?_⟩
  · exact round2_err input.currentSOL
  · exact round2_err input.currentPrice
  · exact jsRound_err (input.currentSOL * input.currentPrice)

/-- Claim C8, witness: the half-year projection of a five-unit holding at
price 100 is the single year-0 point with the stated bounds. -/
theorem projection_short_horizon_amended_witness :
    (calculateProjection
        { currentSOL := 5, currentPrice := 100, years := 1/2, dcaAmountUSD := 10,
          dcaFrequency := DCAFrequency.monthly, jitoSOLEnabled := false, jitoSOLAPR := 3/40 }
        (fun _ => 100)).projections ≠ [] ∧
      (calculateProjection
        { currentSOL := 5, currentPrice := 100, years := 1/2, dcaAmountUSD := 10,
          dcaFrequency := DCAFrequency.monthly, jitoSOLEnabled := false, jitoSOLAPR := 3/40 }
        (fun _ => 100)).projections.length = 1 ∧
      (calculateProjection
        { currentSOL := 5, currentPrice := 100, years := 1/2, dcaAmountUSD := 10,
          dcaFrequency := DCAFrequency.monthly, jitoSOLEnabled := false, jitoSOLAPR := 3/40 }
        (fun _ => 100)).projections.headI.year = 0 ∧
      (calculateProjection
        { currentSOL := 5, currentPrice := 100, years := 1/2, dcaAmountUSD := 10,
          dcaFrequency := DCAFrequency.monthly, jitoSOLEnabled := false, jitoSOLAPR := 3/40 }
        (fun _ => 100)).projections.headI.gainUSD = 0 ∧
      |(calculateProjection
        { currentSOL := 5, currentPrice := 100, years := 1/2, dcaAmountUSD := 10,
          dcaFrequency := DCAFrequency.monthly, jitoSOLEnabled := false, jitoSOLAPR := 3/40 }
        (fun _ => 100)).projections.headI.solBalance - 5| ≤ 1/200 ∧
      |(calculateProjection
        { currentSOL := 5, currentPrice := 100, years := 1/2, dcaAmountUSD := 10,
          dcaFrequency := DCAFrequency.monthly, jitoSOLEnabled := false, jitoSOLAPR := 3/40 }
        (fun _ => 100)).projections.headI.solPrice - 100| ≤ 1/200 ∧
      |(calculateProjection
        { currentSOL := 5, currentPrice := 100, years := 1/2, dcaAmountUSD := 10,
          dcaFrequency := DCAFrequency.monthly, jitoSOLEnabled := false, jitoSOLAPR := 3/40 }
        (fun _ => 100)).projections.headI.portfolioValueUSD - 5 * 100| ≤ 1/2 :=
  projection_short_horizon_amended _ _ (by norm_num) (by norm_num) (by norm_num)

/-- Claim C9: when inflation adjustment is disabled the cumulative
inflation factor is exactly 1 and the present-value conversion is the
identity, for every nominal value and year count. -/
theorem inflation_disabled_identity (x : ℝ) (years : ℕ) (params : InflationParams)
    (h : params.enabled = false) :
    getCumulativeInflationFactor years params = 1 ∧ toTodaysDollars x years params = x := by
  have h1 : getCumulativeInflationFactor years params = 1 := by
    simp [getCumulativeInflationFactor, h]
  exact ⟨h1, by simp [toTodaysDollars, h1]⟩

/-- Claim C9, witness: the identity at nominal value 42 over ten years
with disabled linear parameters. -/
theorem inflation_disabled_identity_witness :
    getCumulativeInflationFactor 10
        { enabled := false, type := InflationType.linear, rate := 3/100,
          amplitude := 1/50, cyclePeriod := 7, debasementRate := 7/100 } = 1 ∧
      toTodaysDollars 42 10
        { enabled := false, type := InflationType.linear, rate := 3/100,
          amplitude := 1/50, cyclePeriod := 7, debasementRate := 7/100 } = 42 :=
  inflation_disabled_identity 42 10 _ rfl

/-- Claim C10: totalInvestedUSD starts at the USD value of the starting
holdings, so for an integer horizon of at least one year the final
totalInvestedUSD is the starting holdings value plus the yearly
contributions of every year, rounded as recorded, and initialValueUSD is
the starting holdings value; gainUSD therefore measures gain over initial
holdings plus contributions. -/
theorem totalInvested_includes_initial_holdings (input : ProjectionInput) (pf : ℕ → ℚ)
    (n : ℕ) (h1 : 1 ≤ n) (h2 : input.years = (n : ℚ)) :
    (calculateProjection input pf).totalInvestedUSD =
      (jsRound (input.currentSOL * input.currentPrice +
        (n : ℚ) * (input.dcaAmountUSD * getContributionsPerYear input.dcaFrequency)) : ℚ) ∧
      (calculateProjection input pf).initialValueUSD = input.currentSOL * input.currentPrice := by
  obtain ⟨m, rfl⟩ : ∃ m, n = m + 1 := ⟨n - 1, by omega⟩
  have hy : (⌊input.years⌋).toNat = m + 1 := by
    rw [h2]
    simp
  rw [calculateProjection_eq_pos input pf m hy]
  constructor
  · show (mkYearlyPoint input pf (m + 1)).totalInvestedUSD = _
    unfold mkYearlyPoint
    simp only []
    rw [projState_invested]
    unfold annualInvestmentUSD
    norm_num
  · rfl

/-- Claim C10, witness: two units held at price 100 with 10 dollars
monthly over two years yield a recorded invested total of the initial 200
dollars plus 240 dollars, and initial value 200. -/
theorem totalInvested_includes_initial_holdings_witness :
    (calculateProjection
        { currentSOL := 2, currentPrice := 100, years := 2, dcaAmountUSD := 10,
          dcaFrequency := DCAFrequency.monthly, jitoSOLEnabled := false, jitoSOLAPR := 3/40 }
        (fun _ => 100)).totalInvestedUSD =
      (jsRound ((2:ℚ) * 100 + ((2:ℕ) : ℚ) * (10 * getContributionsPerYear DCAFrequency.monthly)) : ℚ) ∧
      (calculateProjection
        { currentSOL := 2, currentPrice := 100, years := 2, dcaAmountUSD := 10,
          dcaFrequency := DCAFrequency.monthly, jitoSOLEnabled := false, jitoSOLAPR := 3/40 }
        (fun _ => 100)).initialValueUSD = (2:ℚ) * 100 :=
  totalInvested_includes_initial_holdings _ _ 2 (by norm_num) (by norm_num)

end RetireOnSol
